import Mathlib

/-!
Shallow embedding of the core of `netatmo-rs` (src/client.rs): the
authentication state machine (UnauthenticatedClient → AuthenticatedClient),
the generic request pipeline `api_call`, and the status-code based error
classifier `general_err_handler`.

External collaborators (the blocking HTTP transport, serde_json decoding)
are modelled as explicit function parameters; fallible operations return
`Except`. HTTP status codes are `Nat` (StatusCode::OK = 200, BAD_REQUEST =
400, UNAUTHORIZED = 401, FORBIDDEN = 403, NOT_FOUND = 404, NOT_ACCEPTABLE =
406, INTERNAL_SERVER_ERROR = 500). The `HashMap<&str, &str>` parameter map
is modelled as an association list with HashMap insert semantics.
-/

namespace Netatmo

/-- Embedding of `ClientCredentials` (src/client.rs lines 37-41): immutable pair of
client identifier and secret. -/
structure ClientCredentials where
  client_id : String
  client_secret : String
deriving Repr, DecidableEq

/-- Modelled from the spec: the `Token` type lives in the `authenticate`
module, which is not under src/. Per the spec (§3 and the §8 scenario body
with fields access_token, refresh_token, expires_in) it carries the access
token string plus refresh token and expiry that the core does not manage. -/
structure Token where
  access_token : String
  refresh_token : String
  expires_in : Nat
deriving Repr, DecidableEq

/-- The blocking HTTP transport handle (`reqwest::blocking::Client`) is an
external collaborator; modelled as an opaque identifier so that transport
reuse across the Unauthenticated → Authenticated transition is observable. -/
abbrev Http := Nat

/-- Error kinds of the crate error taxonomy. The `errors` module is not
under src/; the variants and their fields are transcribed from their
construction sites in src/client.rs (lines 72, 110, 114, 116, 150-170) and
the spec §7 taxonomy. -/
inductive ErrorKind where
  | authenticationFailed
  | failedToSendRequest
  | failedToReadResponse
  | jsonDeserializationFailed
  | apiCallFailed (name : String) (code : Int) (msg : String)
  | unknownApiCallFailure (name : String) (status_code : Nat)
deriving Repr, DecidableEq

/-- Modelled from the spec: the `failure` crate's error chaining, used by
`e.context(kind)` in src/client.rs. An error is a classification kind with
an optional underlying cause (§7 propagation policy, §9 design note on
error chaining); `underlying` stands for an opaque library error (reqwest
or serde_json), carried as its description. `Error::from(kind)` is a kind
with no cause; `e.context(kind)` wraps `e` as the cause of `kind`. -/
inductive Error where
  | kind : ErrorKind → Option Error → Error
  | underlying : String → Error
deriving Repr

/-- The HTTP response as the core consumes it: a status code and a body
that can be read as text exactly once, the read itself being fallible
(`Response::text` returns `Result`). -/
structure Response where
  status : Nat
  body : Except String String
deriving Repr

/-- Embedding of `ApiErrorDetails` (src/client.rs lines 131-135): vendor error code
(signed) and message. -/
structure ApiErrorDetails where
  code : Int
  message : String
deriving Repr, DecidableEq

/-- Embedding of `ApiError` (src/client.rs lines 125-129): the vendor error envelope
`\x7b "error": \x7b "code": int, "message": string \x7d \x7d`. -/
structure ApiError where
  details : ApiErrorDetails
deriving Repr, DecidableEq

/-- The fixed error-eligible status set of the classifier match arms
(src/client.rs lines 143-148): 400, 401, 403, 404, 406, 500. -/
def errorEligible (code : Nat) : Bool :=
  code == 400 || code == 401 || code == 403 || code == 404 || code == 406 || code == 500

/-- Embedding of `GeneralErrHandler::general_err_handler` for `Response`
(src/client.rs lines 140-172). `decodeApiError` models
`serde_json::from_str::<ApiError>` (external). The source's match tries
the guard arm `code if code == expected_status` first, then the
error-eligible arms, then the catch-all. -/
def general_err_handler (decodeApiError : String → Except String ApiError)
    (resp : Response) (name : String) (expected_status : Nat) : Except Error Response :=
  if resp.status == expected_status then
    .ok resp
  else if errorEligible resp.status then
    match resp.body with
    | .error e =>
        .error (.kind (.unknownApiCallFailure name resp.status) (some (.underlying e)))
    | .ok body =>
        match decodeApiError body with
        | .error e =>
            .error (.kind (.unknownApiCallFailure name resp.status) (some (.underlying e)))
        | .ok err =>
            .error (.kind (.apiCallFailed name err.details.code err.details.message) none)
  else
    .error (.kind (.unknownApiCallFailure name resp.status) none)

/-- Parameter map: `HashMap<&str, &str>` modelled as an association list. -/
abbrev Params := List (String × String)

/-- HashMap lookup. -/
def getParam : Params → String → Option String
  | [], _ => none
  | (k', v) :: rest, k => if k' == k then some v else getParam rest k

/-- HashMap insert: overwrites the value when the key is present,
otherwise adds the binding. -/
def insertParam : Params → String → String → Params
  | [], k, v => [(k, v)]
  | (k', v') :: rest, k, v =>
      if k' == k then (k, v) :: rest else (k', v') :: insertParam rest k v

/-- Result of `http.post(url).form(&params).send()`: either a transport
failure (connection/DNS/timeout, the opaque reqwest error carried as a
description) or a response. -/
inductive SendResult where
  | failed : String → SendResult
  | response : Response → SendResult
deriving Repr

/-- The transport: a blocking form-encoded POST of a parameter map to a
URL, external collaborator. -/
abbrev Send := String → Params → SendResult

/-- Embedding of `api_call` (src/client.rs lines 102-117): send, classify with the
fixed expected status `StatusCode::OK` (200), read the body as text,
decode JSON into the target payload type. `decodeJson` models
`serde_json::from_str::<T>` (external). -/
def api_call {T : Type} (send : Send) (decodeApiError : String → Except String ApiError)
    (decodeJson : String → Except String T) (name url : String) (params : Params) :
    Except Error T :=
  match send url params with
  | .failed e => .error (.kind .failedToSendRequest (some (.underlying e)))
  | .response r =>
    match general_err_handler decodeApiError r name 200 with
    | .error e => .error e
    | .ok res =>
      match res.body with
      | .error e => .error (.kind .failedToReadResponse (some (.underlying e)))
      | .ok body =>
        match decodeJson body with
        | .error e => .error (.kind .jsonDeserializationFailed (some (.underlying e)))
        | .ok t => .ok t

/-- Embedding of `UnauthenticatedClient` (src/client.rs lines 62-66): credentials plus
the transport handle. -/
structure UnauthenticatedClient where
  client_credentials : ClientCredentials
  http : Http
deriving Repr, DecidableEq

/-- Embedding of `AuthenticatedClient` (src/client.rs lines 83-86): token plus the
transport handle. -/
structure AuthenticatedClient where
  token : Token
  http : Http
deriving Repr, DecidableEq

/-- Embedding of `NetatmoClient::new` (src/client.rs lines 47-52): pure construction of
an Unauthenticated client; `Client::new()` allocates a fresh transport
handle, passed in here. -/
def NetatmoClient.new (cc : ClientCredentials) (freshHttp : Http) : UnauthenticatedClient :=
  { client_credentials := cc, http := freshHttp }

/-- Embedding of `NetatmoClient::with_token` (src/client.rs lines 54-59): direct
construction of an Authenticated client from a token. -/
def NetatmoClient.with_token (t : Token) (freshHttp : Http) : AuthenticatedClient :=
  { token := t, http := freshHttp }

/-- Embedding of `AuthenticatedClient::token` (src/client.rs lines 89-91). -/
def AuthenticatedClient.getToken (c : AuthenticatedClient) : Token :=
  c.token

/-- Embedding of `UnauthenticatedClient::call` (src/client.rs lines 75-81): the
one-time unauthenticated pipeline use; forwards to `api_call` unchanged. -/
def UnauthenticatedClient.call {T : Type} (c : UnauthenticatedClient) (send : Send)
    (decodeApiError : String → Except String ApiError)
    (decodeJson : String → Except String T) (name url : String) (params : Params) :
    Except Error T :=
  api_call send decodeApiError decodeJson name url params

/-- Embedding of `AuthenticatedClient::call` (src/client.rs lines 93-99): inserts the
access token into the caller's parameter map under `"access_token"`, then
forwards to `api_call`. The Rust method mutates the map through `&mut`;
the updated map is returned alongside the result. -/
def AuthenticatedClient.call {T : Type} (c : AuthenticatedClient) (send : Send)
    (decodeApiError : String → Except String ApiError)
    (decodeJson : String → Except String T) (name url : String) (params : Params) :
    Params × Except Error T :=
  let params2 := insertParam params "access_token" c.token.access_token
  (params2, api_call send decodeApiError decodeJson name url params2)

/-- Modelled from the spec: `authenticate::refresh_token` lives in the
`authenticate` module, which is not under src/. Per spec §4.1 it performs
one Request Pipeline call named "refresh_token" posting the refresh token
plus the credentials to the authentication endpoint, and decodes the
response body into a `Token` (`decodeToken` models the serde decode). -/
def authenticate.refresh_token (send : Send)
    (decodeApiError : String → Except String ApiError)
    (decodeToken : String → Except String Token) (authUrl : String)
    (c : UnauthenticatedClient) (rt : String) : Except Error Token :=
  api_call send decodeApiError decodeToken "refresh_token" authUrl
    [("grant_type", "refresh_token"),
     ("client_id", c.client_credentials.client_id),
     ("client_secret", c.client_credentials.client_secret),
     ("refresh_token", rt)]

/-- Embedding of `UnauthenticatedClient::authenticate` (src/client.rs lines 69-73):
runs the token exchange; on success builds an Authenticated client from
the decoded token and the same transport handle (`self.http`); on failure
wraps the pipeline error with `ErrorKind::AuthenticationFailed` via
`e.context(...)`. -/
def UnauthenticatedClient.authenticate (c : UnauthenticatedClient) (send : Send)
    (decodeApiError : String → Except String ApiError)
    (decodeToken : String → Except String Token) (authUrl : String)
    (rt : String) : Except Error AuthenticatedClient :=
  match authenticate.refresh_token send decodeApiError decodeToken authUrl c rt with
  | .ok token => .ok { token := token, http := c.http }
  | .error e => .error (.kind .authenticationFailed (some e))

/-- The two client states of the authentication state machine (spec §3). -/
inductive ClientState where
  | unauthenticated
  | authenticated
deriving Repr, DecidableEq

/-- The six endpoint operations of the `Netatmo` trait
(src/client.rs lines 25-35). -/
inductive EndpointOp where
  | get_home_status
  | get_homes_data
  | get_station_data
  | get_homecoachs_data
  | get_measure
  | set_room_thermpoint
deriving Repr, DecidableEq

/-- Which client state exposes which endpoint operation, transcribed from
the impl blocks of src/client.rs: the `Netatmo` trait is implemented for
`AuthenticatedClient` only (lines 175-202), and the only public operations
on `UnauthenticatedClient` are `authenticate` and the crate-private
pipeline `call` — no endpoint operation (lines 68-81). -/
def exposedOn : ClientState → EndpointOp → Bool
  | .authenticated, _ => true
  | .unauthenticated, _ => false



/-! Helper lemmas shared by the claim theorems. -/

/-- Lookup after insert at the inserted key yields the inserted value
(HashMap insert overwrites). -/
theorem getParam_insertParam_self (m : Params) (k v : String) :
    getParam (insertParam m k v) k = some v := by
  induction m with
  | nil => simp [insertParam, getParam]
  | cons p rest ih =>
      obtain ⟨k', v'⟩ := p
      by_cases h : k' = k
      · subst h
        simp [insertParam, getParam]
      · simp [insertParam, getParam, beq_iff_eq, h, ih]

/-- Lookup after insert at any other key is unchanged. -/
theorem getParam_insertParam_other (m : Params) (k v k2 : String) (h : k2 ≠ k) :
    getParam (insertParam m k v) k2 = getParam m k2 := by
  induction m with
  | nil => simp [insertParam, getParam, beq_iff_eq, Ne.symm h]
  | cons p rest ih =>
      obtain ⟨k', v'⟩ := p
      by_cases hk : k' = k
      · subst hk
        simp [insertParam, getParam, beq_iff_eq, Ne.symm h]
      · simp [insertParam, getParam, beq_iff_eq, hk, ih]

/-- A response whose status equals the expected status passes the
classifier unchanged (the guard arm of the source match). -/
theorem general_err_handler_ok_of_expected
    (decodeApiError : String → Except String ApiError) (resp : Response)
    (name : String) (expected : Nat) (h : resp.status = expected) :
    general_err_handler decodeApiError resp name expected = .ok resp := by
  simp [general_err_handler, h]

/-! Claim theorems. -/

/-- C1: for every credential pair and refresh token, `authenticate`
performs one pipeline call (`authenticate.refresh_token`); if that call
succeeds with token `t` it returns an Authenticated client whose token is
`t` and whose transport handle is the Unauthenticated client's `http`
field; if it fails with error `e` it returns an `AuthenticationFailed`
error wrapping `e` as its cause. Consumption of the Unauthenticated value
is Rust move semantics (type-level); here the Authenticated client is
built from the consumed client's parts. -/
theorem authenticate_transition_spec (send : Send)
    (dA : String → Except String ApiError) (dT : String → Except String Token)
    (authUrl : String) (c : UnauthenticatedClient) (rt : String) :
    (∀ t, authenticate.refresh_token send dA dT authUrl c rt = .ok t →
        c.authenticate send dA dT authUrl rt = .ok { token := t, http := c.http }) ∧
    (∀ e, authenticate.refresh_token send dA dT authUrl c rt = .error e →
        c.authenticate send dA dT authUrl rt
          = .error (.kind .authenticationFailed (some e))) := by
  constructor <;> intro x h <;> simp [UnauthenticatedClient.authenticate, h]

/-- Witness for C1: the spec scenario — credentials abc/xyz, refresh token
rt-1, a transport answering 200 with the scenario body, a token decoder
for that body — yields an Authenticated client with access token tok-1 and
the same transport handle 7. -/
theorem authenticate_transition_spec_witness :
    UnauthenticatedClient.authenticate
      ⟨⟨"abc", "xyz"⟩, 7⟩
      (fun _ _ => .response
        ⟨200, .ok "\x7b\"access_token\":\"tok-1\", \"refresh_token\":\"rt-2\", \"expires_in\":3600\x7d"⟩)
      (fun _ => .error "no envelope")
      (fun s =>
        if s == "\x7b\"access_token\":\"tok-1\", \"refresh_token\":\"rt-2\", \"expires_in\":3600\x7d"
        then .ok ⟨"tok-1", "rt-2", 3600⟩
        else .error "unexpected body")
      "https://api.netatmo.com/oauth2/token" "rt-1"
      = .ok ⟨⟨"tok-1", "rt-2", 3600⟩, 7⟩ :=
  (authenticate_transition_spec _ _ _ _ _ _).1 _ rfl

/-- C2: for every call name, every response whose status is in the
error-eligible set and whose body decodes as the vendor error envelope,
the classifier yields `ApiCallFailed` carrying that name and exactly the
decoded code and message. The expected success status is the fixed 200
that the pipeline always hands to the classifier (src/client.rs line 111),
so an eligible status always differs from it. -/
theorem classifier_api_error_spec
    (decodeApiError : String → Except String ApiError) (name : String)
    (status : Nat) (body : String) (err : ApiError)
    (helig : errorEligible status = true) (hdec : decodeApiError body = .ok err) :
    general_err_handler decodeApiError ⟨status, .ok body⟩ name 200
      = .error (.kind (.apiCallFailed name err.details.code err.details.message) none) := by
  have hne : status ≠ 200 := by
    intro h
    subst h
    exact absurd helig (by decide)
  simp [general_err_handler, beq_iff_eq, hne, helig, hdec]

/-- Witness for C2: the spec scenario — status 403 with envelope code 9,
message "Invalid access token" — classifies as `ApiCallFailed`. -/
theorem classifier_api_error_spec_witness :
    errorEligible 403 = true ∧
    general_err_handler
        (fun _ => .ok { details := { code := 9, message := "Invalid access token" } })
        ⟨403, .ok "envelope"⟩ "get_station_data" 200
      = .error (.kind (.apiCallFailed "get_station_data" 9 "Invalid access token") none) :=
  ⟨by decide, classifier_api_error_spec _ _ _ _ _ (by decide) rfl⟩

/-- C3: for every call name and response whose status is error-eligible
and differs from the expected status, if the body is unreadable, or reads
but does not decode as the error envelope, the classifier returns
`UnknownApiCallFailure` carrying the call name and the actual status.
The classifier is a total Lean function, so it never panics. -/
theorem classifier_unknown_on_bad_envelope
    (decodeApiError : String → Except String ApiError) (name : String)
    (expected status : Nat) (body : Except String String)
    (helig : errorEligible status = true) (hne : status ≠ expected) :
    (∀ e, body = .error e →
        general_err_handler decodeApiError ⟨status, body⟩ name expected
          = .error (.kind (.unknownApiCallFailure name status) (some (.underlying e)))) ∧
    (∀ b e, body = .ok b → decodeApiError b = .error e →
        general_err_handler decodeApiError ⟨status, body⟩ name expected
          = .error (.kind (.unknownApiCallFailure name status) (some (.underlying e)))) := by
  constructor
  · intro e hb
    subst hb
    simp [general_err_handler, beq_iff_eq, hne, helig]
  · intro b e hb hd
    subst hb
    simp [general_err_handler, beq_iff_eq, hne, helig, hd]

/-- Witness for C3: at status 401 both an unreadable body and a
non-envelope body classify as `UnknownApiCallFailure` with status 401. -/
theorem classifier_unknown_on_bad_envelope_witness :
    general_err_handler (fun _ => .error "expected value")
        ⟨401, .error "read failed"⟩ "get_measure" 200
      = .error (.kind (.unknownApiCallFailure "get_measure" 401)
          (some (.underlying "read failed"))) ∧
    general_err_handler (fun _ => .error "expected value")
        ⟨401, .ok "not json"⟩ "get_measure" 200
      = .error (.kind (.unknownApiCallFailure "get_measure" 401)
          (some (.underlying "expected value"))) :=
  ⟨(classifier_unknown_on_bad_envelope _ _ _ _ _ (by decide) (by decide)).1 _ rfl,
   (classifier_unknown_on_bad_envelope _ _ _ _ _ (by decide) (by decide)).2 _ _ rfl rfl⟩

/-- C4: for every response whose status is neither the expected status nor
error-eligible, the classifier returns `UnknownApiCallFailure` with the
call name and the actual status, for every body and every envelope
decoder — so it never reads the body or attempts the envelope decode. -/
theorem classifier_unknown_other_status
    (decodeApiError : String → Except String ApiError) (name : String)
    (expected status : Nat) (body : Except String String)
    (helig : errorEligible status = false) (hne : status ≠ expected) :
    general_err_handler decodeApiError ⟨status, body⟩ name expected
      = .error (.kind (.unknownApiCallFailure name status) none) := by
  simp [general_err_handler, beq_iff_eq, hne, helig]

/-- Witness for C4: the spec scenario — status 503 with empty body —
classifies directly as `UnknownApiCallFailure` with status 503. -/
theorem classifier_unknown_other_status_witness :
    errorEligible 503 = false ∧
    general_err_handler (fun _ => .error "never consulted")
        ⟨503, .ok ""⟩ "get_homes_data" 200
      = .error (.kind (.unknownApiCallFailure "get_homes_data" 503) none) :=
  ⟨by decide, classifier_unknown_other_status _ _ _ _ _ (by decide) (by decide)⟩

/-- C5: every response whose status equals the expected success status
passes the classifier unchanged, for every body and every envelope
decoder — so the body is never read and no envelope decode is attempted. -/
theorem classifier_expected_passthrough
    (decodeApiError : String → Except String ApiError) (resp : Response)
    (name : String) (expected : Nat) (h : resp.status = expected) :
    general_err_handler decodeApiError resp name expected = .ok resp :=
  general_err_handler_ok_of_expected decodeApiError resp name expected h

/-- Witness for C5: a 200 response passes through unchanged even under a
decoder that always fails. -/
theorem classifier_expected_passthrough_witness :
    general_err_handler (fun _ => .error "never consulted")
        ⟨200, .ok "payload"⟩ "get_home_status" 200
      = .ok ⟨200, .ok "payload"⟩ :=
  classifier_expected_passthrough _ _ _ _ rfl

/-- C9: when the expected status itself belongs to the error-eligible set,
a response with exactly that status is passed through unchanged — the
guard arm `code if code == expected_status` of the source match precedes
the error-eligible arms. -/
theorem classifier_expected_precedence
    (decodeApiError : String → Except String ApiError) (name : String)
    (expected : Nat) (body : Except String String)
    (helig : errorEligible expected = true) :
    general_err_handler decodeApiError ⟨expected, body⟩ name expected
      = .ok ⟨expected, body⟩ := by
  simp [general_err_handler]

/-- Witness for C9: with expected status 400 (error-eligible), a 400
response passes through even under a decoder that would succeed. -/
theorem classifier_expected_precedence_witness :
    errorEligible 400 = true ∧
    general_err_handler
        (fun _ => .ok { details := { code := 1, message := "would decode" } })
        ⟨400, .ok "envelope"⟩ "refresh_token" 400
      = .ok ⟨400, .ok "envelope"⟩ :=
  ⟨by decide, classifier_expected_precedence _ _ _ _ (by decide)⟩

/-- C6: stage classification of the pipeline. The expected success status
handed to the classifier is the fixed literal 200 for every call name and
URL (every endpoint); a transport send failure yields
`FailedToSendRequest` with the transport error as cause; any error the
classifier produces is returned as-is; after the classifier passes (status
200), a failed body read yields `FailedToReadResponse`; a body that does
not decode as the target type yields `JsonDeserializationFailed` with the
decode error as cause; otherwise the decoded payload is returned. -/
theorem api_call_stage_spec {T : Type} (send : Send)
    (dA : String → Except String ApiError) (dJ : String → Except String T)
    (name url : String) (params : Params) :
    (∀ e, send url params = .failed e →
        api_call send dA dJ name url params
          = .error (.kind .failedToSendRequest (some (.underlying e)))) ∧
    (∀ r e, send url params = .response r →
        general_err_handler dA r name 200 = .error e →
        api_call send dA dJ name url params = .error e) ∧
    (∀ r e, send url params = .response r → r.status = 200 → r.body = .error e →
        api_call send dA dJ name url params
          = .error (.kind .failedToReadResponse (some (.underlying e)))) ∧
    (∀ r b e, send url params = .response r → r.status = 200 → r.body = .ok b →
        dJ b = .error e →
        api_call send dA dJ name url params
          = .error (.kind .jsonDeserializationFailed (some (.underlying e)))) ∧
    (∀ r b t, send url params = .response r → r.status = 200 → r.body = .ok b →
        dJ b = .ok t →
        api_call send dA dJ name url params = .ok t) := by
  refine ⟨?_, ?_, ?_, ?_, ?_⟩
  · intro e hs
    simp [api_call, hs]
  · intro r e hs hc
    simp [api_call, hs, hc]
  · intro r e hs hst hb
    simp [api_call, hs, general_err_handler_ok_of_expected dA r name 200 hst, hb]
  · intro r b e hs hst hb hd
    simp [api_call, hs, general_err_handler_ok_of_expected dA r name 200 hst, hb, hd]
  · intro r b t hs hst hb hd
    simp [api_call, hs, general_err_handler_ok_of_expected dA r name 200 hst, hb, hd]

/-- Witness for C6: a failing transport yields `FailedToSendRequest`; a
200 response whose body decodes yields the decoded payload. -/
theorem api_call_stage_spec_witness :
    api_call (fun _ _ => .failed "timeout")
        (fun _ => .error "e") (fun _ => (.ok 0 : Except String Nat)) "get_measure" "u" []
      = .error (.kind .failedToSendRequest (some (.underlying "timeout"))) ∧
    api_call (fun _ _ => .response ⟨200, .ok "payload"⟩)
        (fun _ => .error "e")
        (fun s => if s == "payload" then (.ok 42 : Except String Nat) else .error "bad json")
        "get_station_data" "u" []
      = .ok 42 :=
  ⟨(api_call_stage_spec _ _ _ _ _ _).1 _ rfl,
   (api_call_stage_spec _ _ _ _ _ _).2.2.2.2 _ _ _ rfl rfl rfl rfl⟩

/-- C7: the authenticated call inserts the access token under the fixed
key "access_token" immediately before the transport is invoked: the call
factors as the insertion followed by `api_call` on the inserted map, the
transport observes exactly that map (two transports agreeing there give
identical results), and the unauthenticated pipeline call forwards the
caller's map to `api_call` unchanged — it never inserts a token (it has
none: `api_call` itself takes no token). -/
theorem call_token_insertion_spec {T : Type} (c : AuthenticatedClient)
    (u : UnauthenticatedClient) (send send2 : Send)
    (dA : String → Except String ApiError) (dJ : String → Except String T)
    (name url : String) (params : Params)
    (hagree : send url (insertParam params "access_token" c.token.access_token)
            = send2 url (insertParam params "access_token" c.token.access_token)) :
    AuthenticatedClient.call c send dA dJ name url params
      = (insertParam params "access_token" c.token.access_token,
         api_call send dA dJ name url
           (insertParam params "access_token" c.token.access_token)) ∧
    UnauthenticatedClient.call u send dA dJ name url params
      = api_call send dA dJ name url params ∧
    (AuthenticatedClient.call c send dA dJ name url params).2
      = (AuthenticatedClient.call c send2 dA dJ name url params).2 := by
  refine ⟨rfl, rfl, ?_⟩
  simp [AuthenticatedClient.call, api_call, hagree]

/-- Witness for C7: a transport that checks for the token in its parameter
map behaves, under the authenticated call, exactly like one that assumes
it — the transport sees the token-inserted map. -/
theorem call_token_insertion_spec_witness :
    (AuthenticatedClient.call (T := Nat) ⟨⟨"tok-1", "rt-2", 3600⟩, 7⟩
        (fun _ p => if getParam p "access_token" == some "tok-1"
                    then .response ⟨200, .ok "body"⟩ else .failed "no token")
        (fun _ => .error "e") (fun _ => .ok 1) "get_station_data" "u"
        [("device_id", "dev")]).2
      = (AuthenticatedClient.call (T := Nat) ⟨⟨"tok-1", "rt-2", 3600⟩, 7⟩
        (fun _ _ => .response ⟨200, .ok "body"⟩)
        (fun _ => .error "e") (fun _ => .ok 1) "get_station_data" "u"
        [("device_id", "dev")]).2 :=
  (call_token_insertion_spec _ ⟨⟨"", ""⟩, 0⟩ _ _ _ _ _ _ _ rfl).2.2

/-- C8: every endpoint operation of the `Netatmo` trait is exposed on the
Authenticated client state and none on the Unauthenticated state, per the
impl blocks of src/client.rs — so no API call other than the token
exchange can be made from the Unauthenticated state. -/
theorem endpoint_exposure_spec :
    (∀ op : EndpointOp, exposedOn ClientState.unauthenticated op = false) ∧
    (∀ op : EndpointOp, exposedOn ClientState.authenticated op = true) :=
  ⟨fun _ => rfl, fun _ => rfl⟩

/-- C10: the authenticated call updates the caller's parameter map in
place (the Rust method takes the map by `&mut`; the updated map is its
first component here): after the call, the key "access_token" maps to the
client's token — overwriting any value the caller had stored there, since
this holds for every input map — and every other key maps to what it
mapped to before. -/
theorem authenticated_call_frame_spec {T : Type} (c : AuthenticatedClient)
    (send : Send) (dA : String → Except String ApiError)
    (dJ : String → Except String T) (name url : String) (params : Params)
    (k : String) :
    getParam (AuthenticatedClient.call c send dA dJ name url params).1 "access_token"
      = some c.token.access_token ∧
    (k ≠ "access_token" →
      getParam (AuthenticatedClient.call c send dA dJ name url params).1 k
        = getParam params k) := by
  constructor
  · exact getParam_insertParam_self params "access_token" c.token.access_token
  · intro hk
    exact getParam_insertParam_other params "access_token" c.token.access_token k hk

/-- Witness for C10: a map that already binds "access_token" to a stale
value has it overwritten with the client's token, while its "device_id"
entry is untouched. -/
theorem authenticated_call_frame_spec_witness :
    getParam (AuthenticatedClient.call (T := Nat) ⟨⟨"tok-1", "rt-2", 3600⟩, 7⟩
        (fun _ _ => .failed "offline") (fun _ => .error "e") (fun _ => .ok 0)
        "get_measure" "u" [("access_token", "stale"), ("device_id", "dev")]).1
      "access_token" = some "tok-1" ∧
    getParam (AuthenticatedClient.call (T := Nat) ⟨⟨"tok-1", "rt-2", 3600⟩, 7⟩
        (fun _ _ => .failed "offline") (fun _ => .error "e") (fun _ => .ok 0)
        "get_measure" "u" [("access_token", "stale"), ("device_id", "dev")]).1
      "device_id" = getParam [("access_token", "stale"), ("device_id", "dev")] "device_id" :=
  ⟨(authenticated_call_frame_spec _ _ _ _ _ _ _ "device_id").1,
   (authenticated_call_frame_spec _ _ _ _ _ _ _ "device_id").2 (by decide)⟩

end Netatmo
